import Mathlib

/-!
Shallow embedding of `src/app.py` (Work4U application-intake service):
the application store, the admin credential store, the notification
capability (SendGrid wrapper), and the four stateful endpoints
`submit_application`, `approve_application`, `reject_application`,
`change_password`.

Modelling conventions:
* JSON payload fields arrive as `Option String` (`none` = key absent);
  the free-text `motivation` field arrives as `Option JValue` because the
  code coerces it with `str(...)`.
* Python truthiness of `data.get(field)` on these values is `pyFalsy`.
* The SQLite tables are lists of rows plus the AUTOINCREMENT counter.
* The email transport and bcrypt are opaque capabilities carried in `Env`;
  every exception path of `sg.send` is a `false` transport outcome, which
  matches the source where all exceptions are caught and turned into a
  `False` return value.
* Each endpoint returns its HTTP-level result, the updated store, and a
  trace of `Event`s: `dbCommit` for `conn.commit()`, `capCall` for an
  invocation of the send-email capability, `netSend` for an actual
  transport (network) call.
-/

/-- A JSON value, as far as the code inspects one (`str()` coercion). -/
inductive JValue where
  | jnull
  | jstr (s : String)
  | jint (n : Int)
  | jbool (b : Bool)
deriving Repr, DecidableEq

/-- Python `str(...)` on the modelled JSON values. -/
def pyStr : JValue → String
  | .jnull => "None"
  | .jstr s => s
  | .jint n => toString n
  | .jbool true => "True"
  | .jbool false => "False"

/-- Python `not data.get(field)` for a string-or-absent payload field:
true when the key is absent (`None`) or the value is the empty string. -/
def pyFalsy : Option String → Bool
  | none => true
  | some s => s = ""

/-- A wall-clock instant (`datetime.now()`), with the components that
`strftime("%B %d, %Y at %I:%M %p")` reads. -/
structure DateTime where
  year : Nat
  month : Nat
  day : Nat
  hour : Nat
  minute : Nat
deriving Repr, DecidableEq

def monthNames : List String :=
  ["January", "February", "March", "April", "May", "June", "July",
   "August", "September", "October", "November", "December"]

def pad2 (n : Nat) : String :=
  if n < 10 then "0" ++ toString n else toString n

/-- `created_at.strftime("%B %d, %Y at %I:%M %p")` from
`send_admin_notification`. -/
def strftimeAdmin (d : DateTime) : String :=
  let h12 := if d.hour % 12 = 0 then 12 else d.hour % 12
  let ampm := if d.hour < 12 then "AM" else "PM"
  (monthNames.getD (d.month - 1) "") ++ " " ++ pad2 d.day ++ ", " ++
    toString d.year ++ " at " ++ pad2 h12 ++ ":" ++ pad2 d.minute ++ " " ++ ampm

/-- Process environment and opaque capabilities: the SendGrid API key
(`os.environ.get('SENDGRID_API_KEY')`), the `FROM_EMAIL` variable, the
email transport outcome (`sg.send` succeeding, or any exception caught
and logged = `false`; arguments: to, subject, body, html?), and bcrypt
check/hash. -/
structure Env where
  sendgridApiKey : Option String
  fromEmailVar : Option String
  transport : String → String → String → Bool → Bool
  bcryptCheck : String → String → Bool
  bcryptHash : String → String

/-- `FROM_EMAIL = os.environ.get('FROM_EMAIL', 'recruiting.work4u@gmail.com')`. -/
def FROM_EMAIL (env : Env) : String :=
  env.fromEmailVar.getD "recruiting.work4u@gmail.com"

/-- `ADMIN_EMAIL = FROM_EMAIL`. -/
def ADMIN_EMAIL (env : Env) : String :=
  FROM_EMAIL env

/-- Observable side effects of an endpoint invocation. -/
inductive Event where
  | dbCommit
  | capCall (dest subject body : String) (html : Bool)
  | netSend (dest subject body : String) (html : Bool) (ok : Bool)
deriving Repr, DecidableEq

/-- `send_email(to_email, subject, body)`: returns `False` without any
network call when no API key is configured; otherwise performs one
transport call, returning `True` on success and `False` when the
transport raises (the exception is caught and logged). -/
def send_email (env : Env) (to_email subject body : String) : Bool × List Event :=
  match env.sendgridApiKey with
  | none => (false, [.capCall to_email subject body false])
  | some _ =>
      let ok := env.transport to_email subject body false
      (ok, [.capCall to_email subject body false, .netSend to_email subject body false ok])

/-- `send_email_html(to_email, subject, html_content)`: same shape as
`send_email` with an HTML body. -/
def send_email_html (env : Env) (to_email subject html_content : String) : Bool × List Event :=
  match env.sendgridApiKey with
  | none => (false, [.capCall to_email subject html_content true])
  | some _ =>
      let ok := env.transport to_email subject html_content true
      (ok, [.capCall to_email subject html_content true, .netSend to_email subject html_content true ok])

/-- Body of the applicant confirmation email (`send_confirmation_email`). -/
def confirmationBody (first_name last_name : String) : String :=
  "Hi " ++ first_name ++ " " ++ last_name ++ ",\n\n" ++
  "We are delighted to let you know that we have successfully received your application. Thank you for showing interest in joining our team. We truly value the time and effort you put into applying.\n\n" ++
  "Our recruitment team will carefully review your details and get back to you within 3 days.\n\n" ++
  "If you find this email in your spam or promotions folder, kindly mark it as \"Not Spam\" so you won\x27t miss our updates.\n\n" ++
  "We look forward to the possibility of working together.\n\n" ++
  "Best regards,\nWork4U Recruitment Team"

/-- `send_confirmation_email(first_name, last_name, email)`. -/
def send_confirmation_email (env : Env) (first_name last_name email : String) : Bool × List Event :=
  send_email env email "Thank you for applying with us" (confirmationBody first_name last_name)

/-- Body of the admin notification email (`send_admin_notification`). -/
def adminNotificationBody (first_name last_name applicant_email language formatted : String) : String :=
  "Hello Admin,\n\n" ++
  "A new application has just been submitted. Here are the applicant\x27s details:\n\n" ++
  "Full Name: " ++ first_name ++ " " ++ last_name ++ "\n" ++
  "Email Address: " ++ applicant_email ++ "\n" ++
  "Language Applied For: " ++ language ++ "\n" ++
  "Date Submitted: " ++ formatted ++ "\n\n" ++
  "Please log in to the dashboard for full application details.\n\n" ++
  "Best regards,\nWork4U Recruitment System"

/-- `send_admin_notification(first_name, last_name, applicant_email, language, created_at)`:
sends to `ADMIN_EMAIL`, not to the applicant. -/
def send_admin_notification (env : Env) (first_name last_name applicant_email language : String)
    (created_at : DateTime) : Bool × List Event :=
  let formatted := strftimeAdmin created_at
  send_email env (ADMIN_EMAIL env) "New Application Received"
    (adminNotificationBody first_name last_name applicant_email language formatted)

/-- HTML body of the approval email (`send_approval_email`), interpolating
`full_name = first_name + " " + last_name`. -/
def approvalBodyHtml (full_name : String) : String :=
  "\n    <p>Dear " ++ full_name ++ ",</p>\n\n" ++
  "    <p>We are excited to inform you that your application has been approved — welcome on board!</p>\n\n" ++
  "    <p><strong>About the Role</strong><br>\n" ++
  "    As a chat moderator, your role is to engage with customers through our secure web-based platform. You will be replying to messages from users in English, keeping conversations fun, engaging, and creative. Many of these chats may be of a flirty or adult nature, so applicants must feel comfortable handling such conversations while maintaining professionalism and consistency.</p>\n\n" ++
  "    <p>Your goal is simple: keep the conversation alive and enjoyable for the user while typing quickly and clearly.</p>\n\n" ++
  "    <p><strong>Requirements</strong><br>\n" ++
  "    To succeed as a moderator, you’ll need:</p>\n" ++
  "    <ul>\n" ++
  "        <li>Excellent written English and creativity in conversation.</li>\n" ++
  "        <li>A computer or laptop (mobile is not supported).</li>\n" ++
  "        <li>A reliable high-speed internet connection.</li>\n" ++
  "        <li>A verified bank account or PayPal account for payments.</li>\n" ++
  "    </ul>\n\n" ++
  "    <p><strong>Work Hours</strong><br>\n" ++
  "    You will have the freedom to choose your shifts, but please note that our busiest hours are at peak times of night. Weekend shifts are especially high in traffic and highly recommended for maximizing your earnings. We ask all moderators to commit to a minimum of 15 hours per week.</p>\n\n" ++
  "    <p><strong>Pay Structure</strong><br>\n" ++
  "    Payment: €0.10 (10 Euro cents) per sent message.<br>\n" ++
  "    Experienced moderators can type 80–100+ messages per hour, leading to competitive earnings depending on typing speed and commitment.<br>\n" ++
  "    Payments are calculated from the 1st day of each month to the last day of the same month.<br>\n" ++
  "    All payments are processed and paid on the 3rd day of the following month.<br>\n" ++
  "    Payments are sent via PayPal, or direct bank transfer.</p>\n\n" ++
  "    <p><strong>Training & Support</strong><br>\n" ++
  "    Before starting, you’ll receive:</p>\n" ++
  "    <ul>\n" ++
  "        <li>A training manual covering everything you need to know.</li>\n" ++
  "        <li>A one-on-one training session with an experienced team leader to guide you through the system and best practices.</li>\n" ++
  "        <li>Ongoing support from our team whenever you need assistance.</li>\n" ++
  "    </ul>\n\n" ++
  "    <p><strong>Freelance Basis</strong><br>\n" ++
  "    Please note, this is a freelance, self-employed role. This gives you flexibility while also requiring you to manage your own time and schedule responsibly.</p>\n\n" ++
  "    <p><strong>Next Steps</strong><br>\n" ++
  "    To proceed, you’ll need to complete a short test to demonstrate your level of English.<br>\n" ++
  "    Simply click the link below to get started:<br>\n" ++
  "    <a href=\"https://forms.gle/YvgBWxriV2hPfn82A\">https://forms.gle/YvgBWxriV2hPfn82A</a><br>\n" ++
  "    Once you have submitted your answers, our team will review them carefully. You will receive a response within 3 business days regarding the outcome and the next stage of onboarding.</p>\n\n" ++
  "    <p>We are thrilled to have you with us and can’t wait to see you succeed as part of our ChatPlatform team.</p>\n\n" ++
  "    <p>Welcome aboard, and let’s get started!</p>\n\n" ++
  "    <p>Warm regards,<br>\n    Work4U<br>\n    Recruitment Team</p>\n    "

/-- `send_approval_email(first_name, last_name, email)`: HTML email to the
applicant with subject "Your Application Status". -/
def send_approval_email (env : Env) (first_name last_name email : String) : Bool × List Event :=
  let full_name := first_name ++ " " ++ last_name
  send_email_html env email "Your Application Status" (approvalBodyHtml full_name)

/-- HTML body of the rejection email (`send_rejection_email`). -/
def rejectionBodyHtml (full_name : String) : String :=
  "\n    <p>Dear " ++ full_name ++ ",</p>\n\n" ++
  "    <p>Thank you very much for taking the time to apply and complete our assessment for the Chat Moderator position.</p>\n\n" ++
  "    <p>After reviewing your submission carefully, we regret to inform you that your application has not been successful at this time.</p>\n\n" ++
  "    <p>Please don’t be discouraged — competition for this role is very high, and many strong candidates apply. We truly appreciate the effort you put into your application, and we encourage you to reapply in the future should another opportunity arise.</p>\n\n" ++
  "    <p>We wish you the very best in your future endeavors and thank you again for your interest in working with us.</p>\n\n" ++
  "    <p>Warm regards,<br>\n    Work4U<br>\n    Recruitment Team</p>\n    "

/-- `send_rejection_email(first_name, last_name, email)`: HTML email to the
applicant with subject "Regarding Your Application". -/
def send_rejection_email (env : Env) (first_name last_name email : String) : Bool × List Event :=
  let full_name := first_name ++ " " ++ last_name
  send_email_html env email "Regarding Your Application" (rejectionBodyHtml full_name)

/-- One row of the `applications` table. -/
structure Application where
  id : Nat
  first_name : String
  last_name : String
  email : String
  experience_level : String
  language : String
  availability : String
  motivation : String
  status : String
  created_at : DateTime
deriving Repr, DecidableEq

/-- The `applications` table: rows in insertion order plus the SQLite
AUTOINCREMENT counter (`nextId` is strictly greater than every id the
table has ever assigned). -/
structure Store where
  apps : List Application
  nextId : Nat
deriving Repr, DecidableEq

/-- The freshly created (`init_db`) empty table: AUTOINCREMENT starts at 1. -/
def Store.init : Store :=
  { apps := [], nextId := 1 }

/-- `SELECT * FROM applications WHERE id = ?` followed by `fetchone()`. -/
def Store.fetchById (s : Store) (i : Nat) : Option Application :=
  s.apps.find? (fun a => a.id = i)

/-- `UPDATE applications SET status = ? WHERE id = ?`. -/
def Store.setStatus (s : Store) (i : Nat) (st : String) : Store :=
  { s with apps := s.apps.map (fun a => if a.id = i then { a with status := st } else a) }

/-- AUTOINCREMENT well-formedness: every stored id is below the counter. -/
def Store.WF (s : Store) : Prop :=
  ∀ a ∈ s.apps, a.id < s.nextId

/-- HTTP-level outcome of an endpoint: `ok` is a 200 JSON success
response, `err code message` a JSON error response with that status. -/
inductive ApiResult where
  | ok (message : String)
  | err (code : Nat) (message : String)
deriving Repr, DecidableEq

/-- The JSON body of `POST /apply` (`request.get_json()`), restricted to
the keys the code reads; `none` = key absent. The six validated fields are
modelled as JSON strings; `motivation`, which the code passes through
`str(...)`, keeps its JSON value. -/
structure Payload where
  first_name : Option String
  last_name : Option String
  email : Option String
  experience_level : Option String
  language : Option String
  availability : Option String
  motivation : Option JValue
deriving Repr, DecidableEq

/-- `data.get(field)` for the six required field names. -/
def Payload.get (p : Payload) (field : String) : Option String :=
  if field = "first_name" then p.first_name
  else if field = "last_name" then p.last_name
  else if field = "email" then p.email
  else if field = "experience_level" then p.experience_level
  else if field = "language" then p.language
  else if field = "availability" then p.availability
  else none

/-- `required = ['first_name', 'last_name', 'email', 'experience_level', 'language', 'availability']`. -/
def required : List String :=
  ["first_name", "last_name", "email", "experience_level", "language", "availability"]

/-- The `for field in required: if not data.get(field)` loop: the first
required field whose value is Python-falsy, if any. -/
def firstMissing (p : Payload) : Option String :=
  required.find? (fun field => pyFalsy (p.get field))

/-- `VALID_LANGUAGES`. -/
def VALID_LANGUAGES : List String :=
  ["English", "Spanish", "French", "German", "Chinese", "Arabic", "Portuguese", "Russian", "Japanese", "Korean"]

/-- `VALID_AVAILABILITY`. -/
def VALID_AVAILABILITY : List String :=
  ["Day", "Night", "Both"]

/-- Python string slicing `x[:n]`: the first `n` characters (all of them
when the string is shorter). -/
def pySlice (s : String) (n : Nat) : String :=
  (s.toList.take n).asString

/-- Python `c in s` membership of a character in a string. -/
def pyCharIn (c : Char) (s : String) : Bool :=
  s.toList.contains c

/-- `POST /apply` (`submit_application`): fail-fast validation in source
order, then one row insert with `status` left to its `'pending'` default
and `created_at = now`, `conn.commit()`, and two best-effort emails whose
return values are discarded. Returns (response, updated table, event
trace). -/
def submit_application (env : Env) (p : Payload) (now : DateTime) (s : Store) :
    ApiResult × Store × List Event :=
  match firstMissing p with
  | some field => (.err 400 ("Missing " ++ field), s, [])
  | none =>
    if !(["Yes", "No"].contains (p.experience_level.getD "")) then
      (.err 400 "Experience level must be \x27Yes\x27 or \x27No\x27", s, [])
    else if !(VALID_LANGUAGES.contains (p.language.getD "")) then
      (.err 400 "Invalid language selection", s, [])
    else if !(VALID_AVAILABILITY.contains (p.availability.getD "")) then
      (.err 400 "Availability must be \x27Day\x27, \x27Night\x27, or \x27Both\x27", s, [])
    else if !(pyCharIn '@' (p.email.getD "")) then
      (.err 400 "Invalid email format", s, [])
    else
      let motivation := pySlice (pyStr (p.motivation.getD (.jstr ""))) 500
      let row : Application :=
        { id := s.nextId
          first_name := p.first_name.getD ""
          last_name := p.last_name.getD ""
          email := p.email.getD ""
          experience_level := p.experience_level.getD ""
          language := p.language.getD ""
          availability := p.availability.getD ""
          motivation := motivation
          status := "pending"
          created_at := now }
      let s2 : Store := { apps := s.apps ++ [row], nextId := s.nextId + 1 }
      let r1 := send_confirmation_email env (p.first_name.getD "") (p.last_name.getD "") (p.email.getD "")
      let r2 := send_admin_notification env (p.first_name.getD "") (p.last_name.getD "")
        (p.email.getD "") (p.language.getD "") now
      (.ok "Submitted", s2, [.dbCommit] ++ r1.2 ++ r2.2)

/-- `POST /applications/<id>/approve` (`approve_application`): fetch, 404
if absent, unconditional status update to `"approved"`, commit, then one
approval email built from the row read before the update; the email
outcome is discarded. -/
def approve_application (env : Env) (app_id : Nat) (s : Store) :
    ApiResult × Store × List Event :=
  match s.fetchById app_id with
  | none => (.err 404 "Application not found", s, [])
  | some a =>
    let s2 := s.setStatus app_id "approved"
    let r := send_approval_email env a.first_name a.last_name a.email
    (.ok "Application approved and email sent", s2, [.dbCommit] ++ r.2)

/-- `POST /applications/<id>/reject` (`reject_application`): same shape as
approve with terminal status `"rejected"` and the rejection template. -/
def reject_application (env : Env) (app_id : Nat) (s : Store) :
    ApiResult × Store × List Event :=
  match s.fetchById app_id with
  | none => (.err 404 "Application not found", s, [])
  | some a =>
    let s2 := s.setStatus app_id "rejected"
    let r := send_rejection_email env a.first_name a.last_name a.email
    (.ok "Application rejected and email sent", s2, [.dbCommit] ++ r.2)

/-- One row of the `admins` table. -/
structure Admin where
  id : Nat
  username : String
  email : String
  password_hash : String
deriving Repr, DecidableEq

/-- The `admins` table. -/
structure AdminStore where
  admins : List Admin
deriving Repr, DecidableEq

/-- The JSON body of `POST /change-password`, restricted to the keys the
code reads. -/
structure PwPayload where
  currentPassword : Option String
  newPassword : Option String
  confirmPassword : Option String
  email : Option String
deriving Repr, DecidableEq

/-- `SELECT id, password_hash FROM admins WHERE email = ?` with `fetchone()`. -/
def AdminStore.findByEmail (db : AdminStore) (e : String) : Option Admin :=
  db.admins.find? (fun a => a.email = e)

/-- `POST /change-password` (`change_password`): presence check via
`all([...])` (Python-falsy counts as missing), confirmation match, length
policy, then lookup by email (default `admin@work4u.com`) and bcrypt
check — a missing account and a failed check produce the identical 401 —
and finally the hash overwrite keyed by the account id. -/
def change_password (env : Env) (data : PwPayload) (db : AdminStore) :
    ApiResult × AdminStore :=
  let admin_email := data.email.getD "admin@work4u.com"
  if pyFalsy data.currentPassword || pyFalsy data.newPassword || pyFalsy data.confirmPassword then
    (.err 400 "All fields required", db)
  else
    let current_password := data.currentPassword.getD ""
    let new_password := data.newPassword.getD ""
    let confirm_password := data.confirmPassword.getD ""
    if new_password ≠ confirm_password then
      (.err 400 "Passwords do not match", db)
    else if new_password.length < 6 then
      (.err 400 "Password too short", db)
    else
      match db.findByEmail admin_email with
      | none => (.err 401 "Invalid current password", db)
      | some admin =>
        if !(env.bcryptCheck current_password admin.password_hash) then
          (.err 401 "Invalid current password", db)
        else
          let new_hash := env.bcryptHash new_password
          (.ok "Password updated",
            { admins := db.admins.map
                (fun a => if a.id = admin.id then { a with password_hash := new_hash } else a) })

/-- Is this event an invocation of the send-email capability? -/
def Event.isCap : Event → Bool
  | .capCall _ _ _ _ => true
  | _ => false

/-- Is this event an actual network (transport) call? -/
def Event.isNet : Event → Bool
  | .netSend _ _ _ _ _ => true
  | _ => false

/-- Deployment with no SendGrid API key configured; bcrypt is instantiated
with an injective toy hash for concrete evaluation. -/
def envNoKey : Env :=
  { sendgridApiKey := none
    fromEmailVar := none
    transport := fun _ _ _ _ => false
    bcryptCheck := fun pw h => h = "bc:" ++ pw
    bcryptHash := fun pw => "bc:" ++ pw }

/-- Deployment with an API key whose transport always fails. -/
def envKeyFailing : Env :=
  { envNoKey with sendgridApiKey := some "SG-key" }

def dt0 : DateTime :=
  { year := 2025, month := 3, day := 4, hour := 14, minute := 15 }

/-- The valid example submission from the spec (§8). -/
def anaPayload : Payload :=
  { first_name := some "Ana"
    last_name := some "Lee"
    email := some "ana@x.com"
    experience_level := some "No"
    language := some "English"
    availability := some "Night"
    motivation := some (.jstr "x") }

/-- `anaPayload` with a whitespace-only first name: non-empty, hence
Python-truthy, but empty after trimming. -/
def blankFirstName : Payload :=
  { anaPayload with first_name := some " " }

def row0 : Application :=
  { id := 1, first_name := "Ana", last_name := "Lee", email := "ana@x.com"
    experience_level := "No", language := "English", availability := "Night"
    motivation := "x", status := "pending", created_at := dt0 }

def store1 : Store :=
  { apps := [row0], nextId := 2 }

def adminRow : Admin :=
  { id := 1, username := "admin", email := "admin@work4u.com", password_hash := "bc:admin123" }

def adminDb : AdminStore :=
  { admins := [adminRow] }

lemma find?_map_setStatus (l : List Application) (i : Nat) (st : String) (a : Application)
    (h : l.find? (fun b => b.id = i) = some a) :
    (l.map (fun b => if b.id = i then { b with status := st } else b)).find?
      (fun b => b.id = i) = some { a with status := st } := by
  induction l with
  | nil => simp at h
  | cons x xs ih =>
    by_cases hx : x.id = i
    · rw [List.find?_cons_of_pos _ (by simp [hx])] at h
      obtain rfl : x = a := by simpa using h
      simp only [List.map_cons, hx, if_pos rfl]
      exact List.find?_cons_of_pos _ (by simp [hx])
    · rw [List.find?_cons_of_neg _ (by simp [hx])] at h
      simp only [List.map_cons, if_neg hx]
      rw [List.find?_cons_of_neg _ (by simp [hx])]
      exact ih h

lemma fetchById_setStatus (s : Store) (i : Nat) (st : String) (a : Application)
    (h : s.fetchById i = some a) :
    (s.setStatus i st).fetchById i = some { a with status := st } :=
  find?_map_setStatus s.apps i st a h

lemma setStatus_preserves_id_created (s : Store) (i : Nat) (st : String) :
    (s.setStatus i st).apps.map (fun a => (a.id, a.created_at))
      = s.apps.map (fun a => (a.id, a.created_at)) := by
  simp only [Store.setStatus, List.map_map]
  refine List.map_congr_left ?_
  intro a _
  by_cases hx : a.id = i <;> simp [hx]

/-- C5: an id absent from the store makes both decision endpoints return
404 "Application not found", leave the store untouched, and produce an
empty event trace — no commit and no notification attempt. -/
theorem unknown_id_decision_404 (env : Env) (i : Nat) (s : Store)
    (h : s.fetchById i = none) :
    approve_application env i s = (.err 404 "Application not found", s, [])
      ∧ reject_application env i s = (.err 404 "Application not found", s, []) := by
  constructor <;> simp [approve_application, reject_application, h]

theorem unknown_id_decision_404_witness :
    Store.fetchById store1 7 = none
      ∧ approve_application envNoKey 7 store1 = (.err 404 "Application not found", store1, [])
      ∧ reject_application envNoKey 7 store1 = (.err 404 "Application not found", store1, []) :=
  ⟨by decide, (unknown_id_decision_404 envNoKey 7 store1 (by decide)).1,
    (unknown_id_decision_404 envNoKey 7 store1 (by decide)).2⟩


/-- C2 (counterexample): the required-field check is Python truthiness,
not trim-then-check. A payload whose first_name is the single space " "
(empty after trimming) is accepted: the endpoint answers 200 "Submitted"
— not 400 "Missing first_name" — and inserts a row. -/
theorem whitespace_required_field_accepted :
    (submit_application envNoKey blankFirstName dt0 Store.init).1 = .ok "Submitted"
      ∧ (submit_application envNoKey blankFirstName dt0 Store.init).1 ≠ .err 400 "Missing first_name"
      ∧ (submit_application envNoKey blankFirstName dt0 Store.init).2.1.apps.length = 1
      ∧ blankFirstName.first_name = some " " :=
  ⟨rfl, by decide, rfl, rfl⟩

/-- C2 (amended): for every payload whose first Python-falsy required
field — absent, or exactly the empty string, with no whitespace trimming —
is `field`, the endpoint returns 400 "Missing field", inserts nothing,
and performs no side effect. -/
theorem missing_required_field_400_no_insert (env : Env) (p : Payload) (now : DateTime)
    (s : Store) (field : String) (h : firstMissing p = some field) :
    submit_application env p now s = (.err 400 ("Missing " ++ field), s, [])
      ∧ pyFalsy (p.get field) = true ∧ field ∈ required := by
  have h' : required.find? (fun f => pyFalsy (p.get f)) = some field := h
  have hp := List.find?_some h'
  exact ⟨by simp [submit_application, h], by simpa using hp, List.mem_of_find?_eq_some h'⟩

theorem missing_required_field_400_no_insert_witness :
    firstMissing { anaPayload with last_name := none } = some "last_name"
      ∧ submit_application envNoKey { anaPayload with last_name := none } dt0 Store.init
          = (.err 400 "Missing last_name", Store.init, []) :=
  ⟨by decide,
    (missing_required_field_400_no_insert envNoKey { anaPayload with last_name := none }
      dt0 Store.init "last_name" (by decide)).1⟩

/-- C1: for a stored application id, approve sets the status to
"approved" and reject to "rejected" unconditionally (the fetched row's
prior status is arbitrary); the commit event precedes every notification
event in the trace; the single capability call addresses the email with
the first_name/last_name read from the row before the update; and for
every environment — transport succeeding, failing, or absent — the
response is the fixed success message and the store update stands. -/
theorem decision_commits_status_then_notifies (env : Env) (i : Nat) (s : Store)
    (a : Application) (h : s.fetchById i = some a) :
    ((approve_application env i s).1 = .ok "Application approved and email sent"
      ∧ (approve_application env i s).2.1 = s.setStatus i "approved"
      ∧ ((approve_application env i s).2.1).fetchById i = some { a with status := "approved" }
      ∧ ((approve_application env i s).2.2).head? = some .dbCommit
      ∧ ((approve_application env i s).2.2).filter Event.isCap
          = [.capCall a.email "Your Application Status"
              (approvalBodyHtml (a.first_name ++ " " ++ a.last_name)) true])
    ∧ ((reject_application env i s).1 = .ok "Application rejected and email sent"
      ∧ (reject_application env i s).2.1 = s.setStatus i "rejected"
      ∧ ((reject_application env i s).2.1).fetchById i = some { a with status := "rejected" }
      ∧ ((reject_application env i s).2.2).head? = some .dbCommit
      ∧ ((reject_application env i s).2.2).filter Event.isCap
          = [.capCall a.email "Regarding Your Application"
              (rejectionBodyHtml (a.first_name ++ " " ++ a.last_name)) true]) := by
  have hA := fetchById_setStatus s i "approved" a h
  have hR := fetchById_setStatus s i "rejected" a h
  cases hk : env.sendgridApiKey <;>
    simp [approve_application, reject_application, h, hA, hR, send_approval_email,
      send_rejection_email, send_email_html, hk, Event.isCap]

theorem decision_commits_status_then_notifies_witness :
    Store.fetchById store1 1 = some row0
      ∧ (approve_application envNoKey 1 store1).2.1 = store1.setStatus 1 "approved"
      ∧ (reject_application envNoKey 1 store1).1 = .ok "Application rejected and email sent" :=
  ⟨by decide,
    (decision_commits_status_then_notifies envNoKey 1 store1 row0 (by decide)).1.2.1,
    (decision_commits_status_then_notifies envNoKey 1 store1 row0 (by decide)).2.1⟩

/-- C3: for every valid submission, both the applicant confirmation and
the admin notification capability calls appear in the trace — the
applicant call first, the admin call after it, for every environment, so
a failing (or key-less) applicant send never suppresses the admin
attempt — and the response and resulting store are identical across any
two environments, so no notification outcome rolls back the insert or
changes the success response. -/
theorem submit_notifications_best_effort (env1 env2 : Env) (p : Payload) (now : DateTime)
    (s : Store)
    (h1 : firstMissing p = none)
    (h2 : p.experience_level.getD "" = "Yes" ∨ p.experience_level.getD "" = "No")
    (h3 : p.language.getD "" ∈ VALID_LANGUAGES)
    (h4 : p.availability.getD "" ∈ VALID_AVAILABILITY)
    (h5 : '@' ∈ (p.email.getD "").data) :
    (submit_application env1 p now s).1 = .ok "Submitted"
      ∧ (submit_application env1 p now s).2.1 = (submit_application env2 p now s).2.1
      ∧ (submit_application env1 p now s).2.1.apps.length = s.apps.length + 1
      ∧ (submit_application env1 p now s).2.2.filter Event.isCap
          = [.capCall (p.email.getD "") "Thank you for applying with us"
                (confirmationBody (p.first_name.getD "") (p.last_name.getD "")) false,
             .capCall (ADMIN_EMAIL env1) "New Application Received"
                (adminNotificationBody (p.first_name.getD "") (p.last_name.getD "")
                  (p.email.getD "") (p.language.getD "") (strftimeAdmin now)) false] := by
  rcases h2 with h2 | h2 <;> cases hk1 : env1.sendgridApiKey <;> cases hk2 : env2.sendgridApiKey <;>
    simp [submit_application, h1, h2, h3, h4, h5, pyCharIn, String.toList, send_confirmation_email,
      send_admin_notification, send_email, hk1, hk2, Event.isCap]

theorem submit_notifications_best_effort_witness :
    firstMissing anaPayload = none
      ∧ (submit_application envKeyFailing anaPayload dt0 Store.init).1 = .ok "Submitted"
      ∧ (submit_application envKeyFailing anaPayload dt0 Store.init).2.1
          = (submit_application envNoKey anaPayload dt0 Store.init).2.1 :=
  ⟨by decide,
    (submit_notifications_best_effort envKeyFailing envNoKey anaPayload dt0 Store.init
      (by decide) (by decide) (by decide) (by decide) (by decide)).1,
    (submit_notifications_best_effort envKeyFailing envNoKey anaPayload dt0 Store.init
      (by decide) (by decide) (by decide) (by decide) (by decide)).2.1⟩

lemma submit_success_store_eq (env : Env) (p : Payload) (now : DateTime) (s : Store)
    (h1 : firstMissing p = none)
    (h2 : p.experience_level.getD "" = "Yes" ∨ p.experience_level.getD "" = "No")
    (h3 : p.language.getD "" ∈ VALID_LANGUAGES)
    (h4 : p.availability.getD "" ∈ VALID_AVAILABILITY)
    (h5 : '@' ∈ (p.email.getD "").data) :
    (submit_application env p now s).2.1 =
      { apps := s.apps ++
          [{ id := s.nextId
             first_name := p.first_name.getD ""
             last_name := p.last_name.getD ""
             email := p.email.getD ""
             experience_level := p.experience_level.getD ""
             language := p.language.getD ""
             availability := p.availability.getD ""
             motivation := pySlice (pyStr (p.motivation.getD (.jstr ""))) 500
             status := "pending"
             created_at := now }]
        nextId := s.nextId + 1 } := by
  rcases h2 with h2 | h2 <;> cases hk : env.sendgridApiKey <;>
    simp [submit_application, h1, h2, h3, h4, h5, pyCharIn, String.toList,
      send_confirmation_email, send_admin_notification, send_email, hk]

lemma approve_preserves_id_created (env : Env) (j : Nat) (s : Store) :
    (approve_application env j s).2.1.apps.map (fun a => (a.id, a.created_at))
      = s.apps.map (fun a => (a.id, a.created_at)) := by
  cases hf : s.fetchById j <;>
    simp [approve_application, hf, setStatus_preserves_id_created]

lemma reject_preserves_id_created (env : Env) (j : Nat) (s : Store) :
    (reject_application env j s).2.1.apps.map (fun a => (a.id, a.created_at))
      = s.apps.map (fun a => (a.id, a.created_at)) := by
  cases hf : s.fetchById j <;>
    simp [reject_application, hf, setStatus_preserves_id_created]

/-- C4: a valid submission appends one row whose id is the AUTOINCREMENT
counter — strictly greater than every id the store has assigned so far —
with stored status exactly "pending" and created_at the server clock; the
counter invariant is preserved; and the decision endpoints (the only
mutators) change no row's id or created_at. -/
theorem submit_id_monotone_status_pending (env : Env) (p : Payload) (now : DateTime)
    (s : Store) (hwf : s.WF)
    (h1 : firstMissing p = none)
    (h2 : p.experience_level.getD "" = "Yes" ∨ p.experience_level.getD "" = "No")
    (h3 : p.language.getD "" ∈ VALID_LANGUAGES)
    (h4 : p.availability.getD "" ∈ VALID_AVAILABILITY)
    (h5 : '@' ∈ (p.email.getD "").data) :
    (∃ row, (submit_application env p now s).2.1.apps = s.apps ++ [row]
      ∧ row.id = s.nextId
      ∧ row.status = "pending"
      ∧ row.created_at = now
      ∧ (∀ a ∈ s.apps, a.id < row.id)
      ∧ (submit_application env p now s).2.1.WF)
    ∧ (∀ env2 j,
        (approve_application env2 j ((submit_application env p now s).2.1)).2.1.apps.map
            (fun a => (a.id, a.created_at))
          = (submit_application env p now s).2.1.apps.map (fun a => (a.id, a.created_at))
        ∧ (reject_application env2 j ((submit_application env p now s).2.1)).2.1.apps.map
            (fun a => (a.id, a.created_at))
          = (submit_application env p now s).2.1.apps.map (fun a => (a.id, a.created_at))) := by
  have hs := submit_success_store_eq env p now s h1 h2 h3 h4 h5
  constructor
  · refine ⟨_, by rw [hs], rfl, rfl, rfl, fun a ha => hwf a ha, ?_⟩
    rw [hs]
    intro a ha
    rcases List.mem_append.mp ha with ha | ha
    · exact Nat.lt_succ_of_lt (hwf a ha)
    · simp at ha
      subst ha
      exact Nat.lt_succ_self _
  · intro env2 j
    exact ⟨approve_preserves_id_created env2 j _, reject_preserves_id_created env2 j _⟩

theorem submit_id_monotone_status_pending_witness :
    Store.WF Store.init
      ∧ (∃ row, (submit_application envNoKey anaPayload dt0 Store.init).2.1.apps
            = Store.init.apps ++ [row]
          ∧ row.id = Store.init.nextId
          ∧ row.status = "pending"
          ∧ row.created_at = dt0
          ∧ (∀ a ∈ Store.init.apps, a.id < row.id)
          ∧ (submit_application envNoKey anaPayload dt0 Store.init).2.1.WF)
      ∧ (approve_application envNoKey 1 ((submit_application envNoKey anaPayload dt0 Store.init).2.1)).2.1.apps.map
            (fun a => (a.id, a.created_at))
          = (submit_application envNoKey anaPayload dt0 Store.init).2.1.apps.map
            (fun a => (a.id, a.created_at)) :=
  ⟨by simp [Store.WF, Store.init],
    (submit_id_monotone_status_pending envNoKey anaPayload dt0 Store.init
      (by simp [Store.WF, Store.init]) (by decide) (by decide) (by decide) (by decide) (by decide)).1,
    ((submit_id_monotone_status_pending envNoKey anaPayload dt0 Store.init
      (by simp [Store.WF, Store.init]) (by decide) (by decide) (by decide) (by decide) (by decide)).2
      envNoKey 1).1⟩

/-- C6: the credential-rotation checks run in source order — missing
field, then confirmation mismatch, then length policy, then the combined
lookup/bcrypt authentication — the first violated check alone determines
the response, and on every failing path the admin table (hence every
stored password hash) is returned unchanged. -/
theorem change_password_failures_leave_hash_unchanged (env : Env) (data : PwPayload)
    (db : AdminStore) :
    ((pyFalsy data.currentPassword || pyFalsy data.newPassword || pyFalsy data.confirmPassword) = true →
        change_password env data db = (.err 400 "All fields required", db))
    ∧ ((pyFalsy data.currentPassword || pyFalsy data.newPassword || pyFalsy data.confirmPassword) = false →
        data.newPassword.getD "" ≠ data.confirmPassword.getD "" →
        change_password env data db = (.err 400 "Passwords do not match", db))
    ∧ ((pyFalsy data.currentPassword || pyFalsy data.newPassword || pyFalsy data.confirmPassword) = false →
        data.newPassword.getD "" = data.confirmPassword.getD "" →
        (data.newPassword.getD "").length < 6 →
        change_password env data db = (.err 400 "Password too short", db))
    ∧ ((pyFalsy data.currentPassword || pyFalsy data.newPassword || pyFalsy data.confirmPassword) = false →
        data.newPassword.getD "" = data.confirmPassword.getD "" →
        ¬ (data.newPassword.getD "").length < 6 →
        db.findByEmail (data.email.getD "admin@work4u.com") = none →
        change_password env data db = (.err 401 "Invalid current password", db))
    ∧ (∀ a, (pyFalsy data.currentPassword || pyFalsy data.newPassword || pyFalsy data.confirmPassword) = false →
        data.newPassword.getD "" = data.confirmPassword.getD "" →
        ¬ (data.newPassword.getD "").length < 6 →
        db.findByEmail (data.email.getD "admin@work4u.com") = some a →
        env.bcryptCheck (data.currentPassword.getD "") a.password_hash = false →
        change_password env data db = (.err 401 "Invalid current password", db)) := by
  refine ⟨fun hm => by simp [change_password, hm],
    fun hm hne => by simp [change_password, hm, hne],
    fun hm heq hlen => by rw [heq] at hlen; simp [change_password, hm, heq, hlen],
    fun hm heq hlen hf => by rw [heq] at hlen; simp [change_password, hm, heq, hlen, hf],
    fun a hm heq hlen hf hb => by
      rw [heq] at hlen
      simp [change_password, hm, heq, hlen, hf, hb]⟩

theorem change_password_failures_leave_hash_unchanged_witness :
    change_password envNoKey
        { currentPassword := some "admin123", newPassword := some "abcdef"
          confirmPassword := some "abcdeg", email := none } adminDb
      = (.err 400 "Passwords do not match", adminDb)
      ∧ change_password envNoKey
          { currentPassword := some "admin123", newPassword := some "abc"
            confirmPassword := some "abc", email := none } adminDb
        = (.err 400 "Password too short", adminDb) :=
  ⟨(change_password_failures_leave_hash_unchanged envNoKey
      { currentPassword := some "admin123", newPassword := some "abcdef"
        confirmPassword := some "abcdeg", email := none } adminDb).2.1
      (by decide) (by decide),
    (change_password_failures_leave_hash_unchanged envNoKey
      { currentPassword := some "admin123", newPassword := some "abc"
        confirmPassword := some "abc", email := none } adminDb).2.2.1
      (by decide) (by decide) (by decide)⟩

/-- C7: a rotation request naming an email with no admin account and one
naming an existing account but failing the bcrypt check produce the
identical response — 401 with the same message — and leave both stores
unchanged, so the caller cannot tell a missing account from a wrong
password. -/
theorem change_password_unknown_account_indistinguishable
    (env1 env2 : Env) (p1 p2 : PwPayload) (d1 d2 : AdminStore) (a : Admin)
    (hm1 : (pyFalsy p1.currentPassword || pyFalsy p1.newPassword || pyFalsy p1.confirmPassword) = false)
    (he1 : p1.newPassword.getD "" = p1.confirmPassword.getD "")
    (hl1 : ¬ (p1.newPassword.getD "").length < 6)
    (hf1 : d1.findByEmail (p1.email.getD "admin@work4u.com") = none)
    (hm2 : (pyFalsy p2.currentPassword || pyFalsy p2.newPassword || pyFalsy p2.confirmPassword) = false)
    (he2 : p2.newPassword.getD "" = p2.confirmPassword.getD "")
    (hl2 : ¬ (p2.newPassword.getD "").length < 6)
    (hf2 : d2.findByEmail (p2.email.getD "admin@work4u.com") = some a)
    (hb2 : env2.bcryptCheck (p2.currentPassword.getD "") a.password_hash = false) :
    change_password env1 p1 d1 = (.err 401 "Invalid current password", d1)
      ∧ change_password env2 p2 d2 = (.err 401 "Invalid current password", d2)
      ∧ (change_password env1 p1 d1).1 = (change_password env2 p2 d2).1 := by
  rw [he1] at hl1
  rw [he2] at hl2
  refine ⟨?_, ?_, ?_⟩
  · simp [change_password, hm1, he1, hl1, hf1]
  · simp [change_password, hm2, he2, hl2, hf2, hb2]
  · simp [change_password, hm1, he1, hl1, hf1, hm2, he2, hl2, hf2, hb2]

theorem change_password_unknown_account_indistinguishable_witness :
    change_password envNoKey
        { currentPassword := some "admin123", newPassword := some "abcdef"
          confirmPassword := some "abcdef", email := some "ghost@work4u.com" } adminDb
      = (.err 401 "Invalid current password", adminDb)
      ∧ change_password envNoKey
          { currentPassword := some "wrongpass", newPassword := some "abcdef"
            confirmPassword := some "abcdef", email := none } adminDb
        = (.err 401 "Invalid current password", adminDb) :=
  ⟨(change_password_unknown_account_indistinguishable envNoKey envNoKey
      { currentPassword := some "admin123", newPassword := some "abcdef"
        confirmPassword := some "abcdef", email := some "ghost@work4u.com" }
      { currentPassword := some "wrongpass", newPassword := some "abcdef"
        confirmPassword := some "abcdef", email := none } adminDb adminDb adminRow
      (by decide) (by decide) (by decide) (by decide)
      (by decide) (by decide) (by decide) (by decide) (by decide)).1,
    (change_password_unknown_account_indistinguishable envNoKey envNoKey
      { currentPassword := some "admin123", newPassword := some "abcdef"
        confirmPassword := some "abcdef", email := some "ghost@work4u.com" }
      { currentPassword := some "wrongpass", newPassword := some "abcdef"
        confirmPassword := some "abcdef", email := none } adminDb adminDb adminRow
      (by decide) (by decide) (by decide) (by decide)
      (by decide) (by decide) (by decide) (by decide) (by decide)).2.1⟩

/-- C8: a valid submission stores as motivation exactly the payload's
motivation coerced to a string and cut to its first 500 characters: a
JSON string keeps its first 500 characters (never rejected for length),
an absent motivation is stored as the empty string (not null — the column
value is always a string), and the stored value never exceeds 500
characters. -/
theorem submit_motivation_truncated_500 (env : Env) (p : Payload) (now : DateTime) (s : Store)
    (h1 : firstMissing p = none)
    (h2 : p.experience_level.getD "" = "Yes" ∨ p.experience_level.getD "" = "No")
    (h3 : p.language.getD "" ∈ VALID_LANGUAGES)
    (h4 : p.availability.getD "" ∈ VALID_AVAILABILITY)
    (h5 : '@' ∈ (p.email.getD "").data) :
    ∃ row, (submit_application env p now s).2.1.apps = s.apps ++ [row]
      ∧ row.motivation = pySlice (pyStr (p.motivation.getD (.jstr ""))) 500
      ∧ (∀ m, p.motivation = some (.jstr m) → row.motivation = (m.toList.take 500).asString)
      ∧ (p.motivation = none → row.motivation = "")
      ∧ row.motivation.length ≤ 500 := by
  have hs := submit_success_store_eq env p now s h1 h2 h3 h4 h5
  refine ⟨_, by rw [hs], rfl, ?_, ?_, ?_⟩
  · intro m hm
    simp [hm, pySlice, pyStr]
  · intro hm
    simp only [hm]
    rfl
  · simp [pySlice, List.length_asString, List.length_take]

theorem submit_motivation_truncated_500_witness :
    firstMissing { anaPayload with motivation := some (.jstr ((List.replicate 600 'x').asString)) } = none
      ∧ (∃ row, (submit_application envNoKey
            { anaPayload with motivation := some (.jstr ((List.replicate 600 'x').asString)) }
            dt0 Store.init).2.1.apps = Store.init.apps ++ [row]
          ∧ row.motivation = pySlice (pyStr (({ anaPayload with
                motivation := some (.jstr ((List.replicate 600 'x').asString)) } : Payload).motivation.getD (.jstr ""))) 500
          ∧ (∀ m, ({ anaPayload with
                motivation := some (.jstr ((List.replicate 600 'x').asString)) } : Payload).motivation
                = some (.jstr m) → row.motivation = (m.toList.take 500).asString)
          ∧ (({ anaPayload with
                motivation := some (.jstr ((List.replicate 600 'x').asString)) } : Payload).motivation
                = none → row.motivation = "")
          ∧ row.motivation.length ≤ 500) :=
  ⟨by decide,
    submit_motivation_truncated_500 envNoKey
      { anaPayload with motivation := some (.jstr ((List.replicate 600 'x').asString)) }
      dt0 Store.init (by decide) (by decide) (by decide) (by decide) (by decide)⟩

/-- C9: with all six required fields Python-truthy, the enum and email
checks run in source order — experience_level outside Yes/No, then
language outside the 10-item set, then availability outside
Day/Night/Both, then email without an "@" — each returning 400 with its
own distinct message, leaving the store unchanged and performing no side
effect. -/
theorem submit_enum_email_validation_400 (env : Env) (p : Payload) (now : DateTime) (s : Store)
    (h1 : firstMissing p = none) :
    ((p.experience_level.getD "" ≠ "Yes" → p.experience_level.getD "" ≠ "No" →
        submit_application env p now s
          = (.err 400 "Experience level must be \x27Yes\x27 or \x27No\x27", s, [])))
    ∧ ((p.experience_level.getD "" = "Yes" ∨ p.experience_level.getD "" = "No") →
        p.language.getD "" ∉ VALID_LANGUAGES →
        submit_application env p now s = (.err 400 "Invalid language selection", s, []))
    ∧ ((p.experience_level.getD "" = "Yes" ∨ p.experience_level.getD "" = "No") →
        p.language.getD "" ∈ VALID_LANGUAGES →
        p.availability.getD "" ∉ VALID_AVAILABILITY →
        submit_application env p now s
          = (.err 400 "Availability must be \x27Day\x27, \x27Night\x27, or \x27Both\x27", s, []))
    ∧ ((p.experience_level.getD "" = "Yes" ∨ p.experience_level.getD "" = "No") →
        p.language.getD "" ∈ VALID_LANGUAGES →
        p.availability.getD "" ∈ VALID_AVAILABILITY →
        '@' ∉ (p.email.getD "").data →
        submit_application env p now s = (.err 400 "Invalid email format", s, [])) := by
  refine ⟨fun ha hb => by simp [submit_application, h1, ha, hb],
    fun h2 h3 => by
      rcases h2 with h2 | h2 <;> simp [submit_application, h1, h2, h3],
    fun h2 h3 h4 => by
      rcases h2 with h2 | h2 <;> simp [submit_application, h1, h2, h3, h4],
    fun h2 h3 h4 h5 => by
      rcases h2 with h2 | h2 <;>
        simp [submit_application, h1, h2, h3, h4, h5, pyCharIn, String.toList]⟩

theorem submit_enum_email_validation_400_witness :
    submit_application envNoKey { anaPayload with language := some "Klingon" } dt0 Store.init
      = (.err 400 "Invalid language selection", Store.init, [])
      ∧ submit_application envNoKey { anaPayload with email := some "ana.x.com" } dt0 Store.init
        = (.err 400 "Invalid email format", Store.init, []) :=
  ⟨(submit_enum_email_validation_400 envNoKey { anaPayload with language := some "Klingon" }
      dt0 Store.init (by decide)).2.1 (by decide) (by decide),
    (submit_enum_email_validation_400 envNoKey { anaPayload with email := some "ana.x.com" }
      dt0 Store.init (by decide)).2.2.2 (by decide) (by decide) (by decide) (by decide)⟩

/-- C10: with no SendGrid API key, both email functions return failure
with a capability-call event but no network event; every submit trace is
free of network events; and the three mutating endpoints still perform
their store mutation and return their success response. -/
theorem no_api_key_skips_network_still_succeeds (env : Env)
    (h : env.sendgridApiKey = none) :
    (∀ t su b, send_email env t su b = (false, [.capCall t su b false]))
    ∧ (∀ t su b, send_email_html env t su b = (false, [.capCall t su b true]))
    ∧ (∀ p now s, ((submit_application env p now s).2.2.filter Event.isNet) = [])
    ∧ (∀ p now s, firstMissing p = none →
        (p.experience_level.getD "" = "Yes" ∨ p.experience_level.getD "" = "No") →
        p.language.getD "" ∈ VALID_LANGUAGES →
        p.availability.getD "" ∈ VALID_AVAILABILITY →
        '@' ∈ (p.email.getD "").data →
        (submit_application env p now s).1 = .ok "Submitted"
          ∧ (submit_application env p now s).2.1.apps.length = s.apps.length + 1)
    ∧ (∀ i s a, Store.fetchById s i = some a →
        (approve_application env i s).1 = .ok "Application approved and email sent"
          ∧ (approve_application env i s).2.1 = s.setStatus i "approved"
          ∧ ((approve_application env i s).2.2.filter Event.isNet) = [])
    ∧ (∀ i s a, Store.fetchById s i = some a →
        (reject_application env i s).1 = .ok "Application rejected and email sent"
          ∧ (reject_application env i s).2.1 = s.setStatus i "rejected"
          ∧ ((reject_application env i s).2.2.filter Event.isNet) = []) := by
  refine ⟨fun t su b => by simp [send_email, h],
    fun t su b => by simp [send_email_html, h],
    fun p now s => ?_, fun p now s h1 h2 h3 h4 h5 => ?_,
    fun i s a hf => by
      simp [approve_application, hf, send_approval_email, send_email_html, h, Event.isNet],
    fun i s a hf => by
      simp [reject_application, hf, send_rejection_email, send_email_html, h, Event.isNet]⟩
  · cases hfm : firstMissing p with
    | some f => simp [submit_application, hfm]
    | none =>
      simp only [submit_application, hfm]
      repeat' split
      all_goals
        simp [send_confirmation_email, send_admin_notification, send_email, h, Event.isNet]
  · have hs := submit_success_store_eq env p now s h1 h2 h3 h4 h5
    refine ⟨?_, by rw [hs]; simp⟩
    rcases h2 with h2 | h2 <;>
      simp [submit_application, h1, h2, h3, h4, h5, pyCharIn, String.toList,
        send_confirmation_email, send_admin_notification, send_email, h]

theorem no_api_key_skips_network_still_succeeds_witness :
    send_email envNoKey "someone@x.com" "Subject" "Body"
        = (false, [.capCall "someone@x.com" "Subject" "Body" false])
      ∧ (approve_application envNoKey 1 store1).1 = .ok "Application approved and email sent"
      ∧ ((approve_application envNoKey 1 store1).2.2.filter Event.isNet) = [] :=
  ⟨(no_api_key_skips_network_still_succeeds envNoKey rfl).1 "someone@x.com" "Subject" "Body",
    ((no_api_key_skips_network_still_succeeds envNoKey rfl).2.2.2.2.1 1 store1 row0 (by decide)).1,
    ((no_api_key_skips_network_still_succeeds envNoKey rfl).2.2.2.2.1 1 store1 row0 (by decide)).2.2⟩
